import Mathlib

/-!
Shallow embedding of `launcha/launcha.py` (the `launcha` CLI).

The embedded functions mirror the source:
  * `recommend_specs`  — lines 60-71: query the instance-type catalog and
    return `(num_vcpu, num_memory, gpu_count)`.
  * `submit_aws_job`   — lines 74-137: resolve resources, register a job
    definition, submit a job, and deregister in a `finally` block.

External API calls (boto3 `ec2`/`batch` clients) are modelled by an
environment `BatchEnv` that fixes, for this one invocation, the catalog
entry returned by `describe_instance_types` (or that it raised) and the
outcome of each batch call (an exception, or a response whose
`ResponseMetadata.HTTPStatusCode` is recorded).  `submit_aws_job` returns a
trace recording which calls were made, the request payloads they carried,
whether the `except` branch logged a failure, and whether the function
itself raised to its caller (`hardError`).

Python `int` quantities for resources are modelled as `Nat` (the catalog
values and the CLI inputs are non-negative counts; the spec's data model
makes zero the "derive from instance type" sentinel).  `num_hours` is a
Python float used only in `int(num_hours * 60 * 60)`; it is modelled as an
exact rational, with Python `int()` truncation modelled by `pyInt`.
-/

namespace Launcha

/-- Python `int()` applied to a rational: truncation toward zero
(`Int.tdiv` is T-division, which truncates toward zero, and the
denominator of a `Rat` is positive). -/
def pyInt (q : ℚ) : ℤ := q.num.tdiv q.den

/-- Line 16: `MEMORY_USAGE_FRACTION = 0.8`. -/
def MEMORY_USAGE_FRACTION : ℚ := 0.8

/-- The catalog record for one instance type, as consumed by
`recommend_specs`: `DefaultVCpus`, `SizeInMiB`, and — when the `GpuInfo`
key is present — the list of `Count` fields of the GPU device entries. -/
structure InstanceSpecs where
  defaultVCpus : ℕ
  sizeInMiB : ℕ
  gpuInfo : Option (List ℕ)
deriving DecidableEq

/-- Lines 60-71: `recommend_specs`.  Returns
`(num_vcpu, num_memory, gpu_count)` where `num_memory` is
`int(SizeInMiB * MEMORY_USAGE_FRACTION)` and `gpu_count` accumulates the
`Count` of each GPU entry when `GpuInfo` is present, else stays `0`. -/
def recommend_specs (specs : InstanceSpecs) : ℕ × ℕ × ℕ :=
  let num_vcpu := specs.defaultVCpus
  let num_memory := (pyInt ((specs.sizeInMiB : ℚ) * MEMORY_USAGE_FRACTION)).toNat
  let gpu_count :=
    match specs.gpuInfo with
    | some gpus_specs => gpus_specs.foldl (fun acc c => acc + c) 0
    | none => 0
  (num_vcpu, num_memory, gpu_count)

/-- Replace every occurrence of the character `c` by the character list
`r`. -/
def replaceChars : List Char → Char → List Char → List Char
  | [], _, _ => []
  | x :: xs, c, r => (if x = c then r else [x]) ++ replaceChars xs c r

/-- Python `str.replace` restricted to a single-character pattern (every
pattern used by the source is a single character). -/
def pyReplace (s : String) (c : Char) (r : String) : String :=
  ⟨replaceChars s.data c r.data⟩

/-- The sanitization applied to the image tag on line 94:
`.replace(":", "").replace("/", "_").replace(" ", "").replace("-", "_")`. -/
def sanitizeTag (docker_tag : String) : String :=
  pyReplace (pyReplace (pyReplace (pyReplace docker_tag ':' "") '/' "_") ' ' "") '-' "_"

/-- Line 94: `job_name = <sanitized tag> + str(int(time.time()))`. -/
def jobNameOf (docker_tag : String) (timestamp : ℕ) : String :=
  sanitizeTag docker_tag ++ toString timestamp

/-- Line 101: `job_def_name = docker_tag.replace(":", "_").replace("/", "_")`. -/
def jobDefNameOf (docker_tag : String) : String :=
  pyReplace (pyReplace docker_tag ':' "_") '/' "_"

/-- The arguments of `submit_aws_job` (lines 74-83), with the source's
defaults. -/
structure SubmitArgs where
  docker_tag : String
  run_command : String
  instance_type : String
  num_vcpu : ℕ := 0
  num_memory : ℕ := 0
  num_gpu : ℕ := 0
  num_hours : ℚ := 120
  num_retries : ℕ := 1
  environment_variables : List (String × String) := []
deriving DecidableEq

/-- Lines 85-91: call `recommend_specs` and replace each zero-valued
dimension by the recommended one. -/
def resolveSpecs (specs : InstanceSpecs) (a : SubmitArgs) : ℕ × ℕ × ℕ :=
  let recommended := recommend_specs specs
  (if a.num_vcpu = 0 then recommended.1 else a.num_vcpu,
   if a.num_memory = 0 then recommended.2.1 else a.num_memory,
   if a.num_gpu = 0 then recommended.2.2 else a.num_gpu)

/-- Lines 95-99: the `resourceRequirements` list, `[{"value": str(num_gpu),
"type": "GPU"}]` when `num_gpu` is truthy, else `[]`.  The pair is
`(value, type)`. -/
def resourceRequirementsOf (num_gpu : ℕ) : List (String × String) :=
  if num_gpu ≠ 0 then [(toString num_gpu, "GPU")] else []

/-- The `containerProperties` dict passed to `register_job_definition`
(lines 105-112). -/
structure ContainerProps where
  image : String
  vcpus : ℕ
  memory : ℕ
  command : List String
deriving DecidableEq

/-- The request passed to `submit_job` (lines 114-127). -/
structure SubmitPayload where
  jobName : String
  jobQueue : String
  jobDefinition : String
  overrideVcpus : ℕ
  overrideMemory : ℕ
  overrideCommand : List String
  environment : List (String × String)
  resourceRequirements : List (String × String)
  retryAttempts : ℕ
  attemptDurationSeconds : ℤ
deriving DecidableEq

/-- Lines 102-113: the `containerProperties` registered for this call. -/
def containerPropsOf (specs : InstanceSpecs) (a : SubmitArgs) : ContainerProps :=
  let r := resolveSpecs specs a
  { image := a.docker_tag
    vcpus := r.1
    memory := r.2.1
    command := ["/bin/bash"] }

/-- Lines 114-127: the `submit_job` request for this call. -/
def buildPayload (specs : InstanceSpecs) (a : SubmitArgs) (timestamp : ℕ) : SubmitPayload :=
  let r := resolveSpecs specs a
  { jobName := jobNameOf a.docker_tag timestamp
    jobQueue := a.instance_type
    jobDefinition := jobDefNameOf a.docker_tag
    overrideVcpus := r.1
    overrideMemory := r.2.1
    overrideCommand := ["/bin/bash", "-c", a.run_command]
    environment := a.environment_variables
    resourceRequirements := resourceRequirementsOf r.2.2
    retryAttempts := a.num_retries
    attemptDurationSeconds := pyInt (a.num_hours * 60 * 60) }

/-- Outcome of one boto3 batch call: either the SDK call raised, or it
returned a response whose `ResponseMetadata.HTTPStatusCode` is recorded. -/
inductive ApiResult where
  | exn : ApiResult
  | ok (httpStatusCode : ℕ) : ApiResult
deriving DecidableEq

/-- The external world for one `submit_aws_job` invocation:
`describeOutcome` is the catalog entry `describe_instance_types` returns
for `instance_type` (`none` when that call raises, e.g. an unknown type),
the three `ApiResult`s are the outcomes of the batch-client calls, and
`timestamp` is `int(time.time())` at line 94. -/
structure BatchEnv where
  describeOutcome : Option InstanceSpecs
  registerResult : ApiResult
  submitResult : ApiResult
  deregisterResult : ApiResult
  timestamp : ℕ
deriving DecidableEq

/-- Observable trace of one `submit_aws_job` invocation: how often each
external call ran, the request payloads carried, whether a failure was
printed by the `except`/status-check branches, and whether
`submit_aws_job` itself raised to its caller. -/
structure SubmitTrace where
  recommendCalls : ℕ
  registerCalls : ℕ
  registered : Option ContainerProps
  submitCalls : ℕ
  submitted : Option SubmitPayload
  submitFailureLogged : Bool
  deregisterCalls : ℕ
  hardError : Bool
deriving DecidableEq

/-- Lines 133-137: the `finally` block.  The deregister call always runs;
a non-200 status (or an exception from the call itself) escapes the
function as a hard error. -/
def finallyDeregister (t : SubmitTrace) (dereg : ApiResult) : SubmitTrace :=
  match dereg with
  | .exn => { t with deregisterCalls := t.deregisterCalls + 1, hardError := true }
  | .ok s => { t with deregisterCalls := t.deregisterCalls + 1, hardError := s != 200 }

/-- Lines 100-132: the `try`/`except` block, given that `recommend_specs`
on line 85 returned `specs`.  Registration always runs (and its response
status is never inspected); submission runs unless registration raised; a
raised exception from either call, or a non-200 submission status
(line 128), is caught by `except Exception as e` and printed (line 132). -/
def tryBlockTrace (env : BatchEnv) (specs : InstanceSpecs) (a : SubmitArgs) : SubmitTrace :=
  let base : SubmitTrace :=
    { recommendCalls := 1, registerCalls := 1,
      registered := some (containerPropsOf specs a),
      submitCalls := 0, submitted := none, submitFailureLogged := false,
      deregisterCalls := 0, hardError := false }
  match env.registerResult with
  | .exn => { base with submitFailureLogged := true }
  | .ok _ =>
      match env.submitResult with
      | .exn =>
          { base with submitCalls := 1,
                      submitted := some (buildPayload specs a env.timestamp),
                      submitFailureLogged := true }
      | .ok s =>
          if s ≠ 200 then
            { base with submitCalls := 1,
                        submitted := some (buildPayload specs a env.timestamp),
                        submitFailureLogged := true }
          else
            { base with submitCalls := 1,
                        submitted := some (buildPayload specs a env.timestamp) }

/-- Lines 74-137: `submit_aws_job`.  Line 85 calls `recommend_specs`
unconditionally; when `describe` raises, the exception propagates before
the `try` block, so nothing else runs.  Otherwise the try block runs and
the `finally` block deregisters. -/
def submit_aws_job (env : BatchEnv) (a : SubmitArgs) : SubmitTrace :=
  match env.describeOutcome with
  | none =>
      { recommendCalls := 1, registerCalls := 0, registered := none,
        submitCalls := 0, submitted := none, submitFailureLogged := false,
        deregisterCalls := 0, hardError := true }
  | some specs =>
      finallyDeregister (tryBlockTrace env specs a) env.deregisterResult

/-! ### Basic lemmas about the embedded arithmetic -/

/-- On a non-negative rational, Python truncation agrees with the floor. -/
theorem pyInt_eq_floor (q : ℚ) (h : 0 ≤ q) : pyInt q = ⌊q⌋ := by
  rw [pyInt, Int.tdiv_eq_ediv (Rat.num_nonneg.2 h) (Int.ofNat_nonneg q.den), Rat.floor_def]

/-- Python truncation is the identity on a natural number. -/
theorem pyInt_natCast (n : ℕ) : pyInt (n : ℚ) = (n : ℤ) := by
  rw [pyInt, Rat.num_natCast, Rat.den_natCast]
  simp

/-- The memory recommendation `int(m * 0.8)` is the natural-number
division `m * 4 / 5`. -/
theorem pyInt_mul_eight_tenths (m : ℕ) :
    (pyInt ((m : ℚ) * MEMORY_USAGE_FRACTION)).toNat = m * 4 / 5 := by
  have h08 : MEMORY_USAGE_FRACTION = 4 / 5 := by norm_num [MEMORY_USAGE_FRACTION]
  have hq : (m : ℚ) * MEMORY_USAGE_FRACTION = ((m * 4 : ℕ) : ℚ) / ((5 : ℕ) : ℚ) := by
    rw [h08]; push_cast; ring
  have hnn : 0 ≤ (m : ℚ) * MEMORY_USAGE_FRACTION := by
    rw [hq]; positivity
  rw [pyInt_eq_floor _ hnn, Int.floor_toNat, hq, Nat.floor_div_nat, Nat.floor_natCast]

/-- Folding addition over a list starting from `n` adds the list sum. -/
theorem foldl_add_eq_add_sum (l : List ℕ) : ∀ n : ℕ,
    l.foldl (fun acc c => acc + c) n = n + l.sum := by
  induction l with
  | nil => intro n; simp
  | cons x xs ih => intro n; simp [List.sum_cons, ih, Nat.add_assoc]

/-! ### Projections of the trace through the finally block -/

@[simp] theorem finallyDeregister_recommendCalls (t : SubmitTrace) (d : ApiResult) :
    (finallyDeregister t d).recommendCalls = t.recommendCalls := by cases d <;> rfl

@[simp] theorem finallyDeregister_registerCalls (t : SubmitTrace) (d : ApiResult) :
    (finallyDeregister t d).registerCalls = t.registerCalls := by cases d <;> rfl

@[simp] theorem finallyDeregister_registered (t : SubmitTrace) (d : ApiResult) :
    (finallyDeregister t d).registered = t.registered := by cases d <;> rfl

@[simp] theorem finallyDeregister_submitCalls (t : SubmitTrace) (d : ApiResult) :
    (finallyDeregister t d).submitCalls = t.submitCalls := by cases d <;> rfl

@[simp] theorem finallyDeregister_submitted (t : SubmitTrace) (d : ApiResult) :
    (finallyDeregister t d).submitted = t.submitted := by cases d <;> rfl

@[simp] theorem finallyDeregister_submitFailureLogged (t : SubmitTrace) (d : ApiResult) :
    (finallyDeregister t d).submitFailureLogged = t.submitFailureLogged := by cases d <;> rfl

@[simp] theorem finallyDeregister_deregisterCalls (t : SubmitTrace) (d : ApiResult) :
    (finallyDeregister t d).deregisterCalls = t.deregisterCalls + 1 := by cases d <;> rfl

theorem finallyDeregister_hardError_ok (t : SubmitTrace) (s : ℕ) :
    (finallyDeregister t (ApiResult.ok s)).hardError = (s != 200) := rfl

theorem finallyDeregister_hardError_exn (t : SubmitTrace) :
    (finallyDeregister t ApiResult.exn).hardError = true := rfl

/-! ### Projections of the try-block trace -/

/-- The components of the try-block trace that are the same in every
branch: the recommender and registration always ran once, the registered
container properties are fixed, no deregistration happened yet, and no
exception escapes the block. -/
theorem tryBlockTrace_fixed (env : BatchEnv) (specs : InstanceSpecs) (a : SubmitArgs) :
    (tryBlockTrace env specs a).recommendCalls = 1 ∧
    (tryBlockTrace env specs a).registerCalls = 1 ∧
    (tryBlockTrace env specs a).registered = some (containerPropsOf specs a) ∧
    (tryBlockTrace env specs a).deregisterCalls = 0 ∧
    (tryBlockTrace env specs a).hardError = false := by
  unfold tryBlockTrace
  cases env.registerResult with
  | exn => exact ⟨rfl, rfl, rfl, rfl, rfl⟩
  | ok r =>
    cases env.submitResult with
    | exn => exact ⟨rfl, rfl, rfl, rfl, rfl⟩
    | ok s =>
      by_cases h : s ≠ 200 <;> simp [h]

/-- Whenever the try block records a submission payload, it is the one
built from the resolved specs and the invocation timestamp. -/
theorem tryBlockTrace_submitted_eq (env : BatchEnv) (specs : InstanceSpecs) (a : SubmitArgs)
    (p : SubmitPayload) (h : (tryBlockTrace env specs a).submitted = some p) :
    p = buildPayload specs a env.timestamp := by
  unfold tryBlockTrace at h
  cases hr : env.registerResult with
  | exn => rw [hr] at h; exact absurd h (by simp)
  | ok r =>
    rw [hr] at h
    cases hs : env.submitResult with
    | exn => rw [hs] at h; exact (Option.some.inj h).symm
    | ok s =>
      rw [hs] at h
      by_cases h200 : s ≠ 200 <;> simp [h200] at h <;> exact h.symm

/-- When both batch calls return responses, the try block records a
failure exactly when the submission status is non-200; the registration
status `r` plays no role, and submission is attempted regardless. -/
theorem tryBlockTrace_ok_ok (env : BatchEnv) (specs : InstanceSpecs) (a : SubmitArgs)
    (r s : ℕ) (hr : env.registerResult = ApiResult.ok r)
    (hs : env.submitResult = ApiResult.ok s) :
    (tryBlockTrace env specs a).submitFailureLogged = (s != 200) ∧
    (tryBlockTrace env specs a).submitCalls = 1 ∧
    (tryBlockTrace env specs a).submitted = some (buildPayload specs a env.timestamp) := by
  unfold tryBlockTrace
  rw [hr, hs]
  by_cases h : s ≠ 200
  · simp [h, bne_iff_ne]
  · push_neg at h
    subst h
    simp

/-- When `describe_instance_types` succeeds, `submit_aws_job` is the
try block followed by the deregistration of the finally block. -/
theorem submit_aws_job_eq (env : BatchEnv) (a : SubmitArgs) (specs : InstanceSpecs)
    (hd : env.describeOutcome = some specs) :
    submit_aws_job env a = finallyDeregister (tryBlockTrace env specs a) env.deregisterResult := by
  unfold submit_aws_job
  rw [hd]

/-! ### Concrete fixtures -/

/-- Catalog entry of the scenario in the spec: 4 vcpu, 16384 MiB, one GPU
device of count 1 (a g4dn.xlarge). -/
def g4dnSpecs : InstanceSpecs := { defaultVCpus := 4, sizeInMiB := 16384, gpuInfo := some [1] }

/-- Arguments leaving every resource dimension to the recommender. -/
def sampleArgs : SubmitArgs :=
  { docker_tag := "vwxyzjn/cleanrl:latest"
    run_command := "docker run -d cleanrl"
    instance_type := "g4dn.xlarge"
    num_hours := 2
    num_retries := 3 }

/-- Arguments with every resource dimension supplied by the caller. -/
def fullResourceArgs : SubmitArgs :=
  { docker_tag := "vwxyzjn/cleanrl:latest"
    run_command := "docker run -d cleanrl"
    instance_type := "g4dn.xlarge"
    num_vcpu := 8
    num_memory := 30000
    num_gpu := 1
    num_hours := 2
    num_retries := 3 }

/-- Every call succeeds with status 200. -/
def envAllOk : BatchEnv :=
  { describeOutcome := some g4dnSpecs, registerResult := ApiResult.ok 200,
    submitResult := ApiResult.ok 200, deregisterResult := ApiResult.ok 200,
    timestamp := 1700000000 }

/-- Submission and registration succeed, deregistration returns 500. -/
def envDeregFail : BatchEnv :=
  { describeOutcome := some g4dnSpecs, registerResult := ApiResult.ok 200,
    submitResult := ApiResult.ok 200, deregisterResult := ApiResult.ok 500,
    timestamp := 1700000000 }

/-- The submission call returns a non-200 status. -/
def envSubmitFail : BatchEnv :=
  { describeOutcome := some g4dnSpecs, registerResult := ApiResult.ok 200,
    submitResult := ApiResult.ok 500, deregisterResult := ApiResult.ok 200,
    timestamp := 1700000000 }

/-- The registration call returns a non-200 status; everything else is 200. -/
def envRegisterBadStatus : BatchEnv :=
  { describeOutcome := some g4dnSpecs, registerResult := ApiResult.ok 500,
    submitResult := ApiResult.ok 200, deregisterResult := ApiResult.ok 200,
    timestamp := 1700000000 }

/-- Both the registration and the submission call return non-200 statuses. -/
def envBothBadStatus : BatchEnv :=
  { describeOutcome := some g4dnSpecs, registerResult := ApiResult.ok 500,
    submitResult := ApiResult.ok 500, deregisterResult := ApiResult.ok 200,
    timestamp := 1700000000 }

/-- The payload submitted in the fixture runs above. -/
def submittedPayload : SubmitPayload := buildPayload g4dnSpecs sampleArgs 1700000000

/-- The container properties registered in the fixture runs above. -/
def registeredProps : ContainerProps := containerPropsOf g4dnSpecs sampleArgs

/-- An image reference containing a slash. -/
def tagSlash : String := "a/b"

/-- A distinct image reference containing a dash instead. -/
def tagDash : String := "a-b"

/-- What stripping all of the characters of the slash tag would give. -/
def tagSlashStripped : String := "ab"

/-! ### The claims -/

/-- C1: whenever the catalog query succeeded (so the `try` block is
reached at all), `submit_aws_job` invokes the deregistration call exactly
once — regardless of whether the registration call or the submission call
raised or returned a failing status — and if the deregistration response
status is not 200 (or the deregistration call itself raises), the
function raises a hard error to its caller. -/
theorem submit_aws_job_deregisters_once (env : BatchEnv) (a : SubmitArgs)
    (specs : InstanceSpecs) (hd : env.describeOutcome = some specs) :
    (submit_aws_job env a).deregisterCalls = 1 ∧
    (∀ s : ℕ, env.deregisterResult = ApiResult.ok s → s ≠ 200 →
      (submit_aws_job env a).hardError = true) ∧
    (env.deregisterResult = ApiResult.exn → (submit_aws_job env a).hardError = true) := by
  rw [submit_aws_job_eq env a specs hd]
  refine ⟨?_, ?_, ?_⟩
  · rw [finallyDeregister_deregisterCalls, (tryBlockTrace_fixed env specs a).2.2.2.1]
  · intro s hs h200
    rw [hs, finallyDeregister_hardError_ok]
    exact bne_iff_ne.mpr h200
  · intro hx
    rw [hx, finallyDeregister_hardError_exn]

/-- Witness for C1: in a run where every call succeeds except that
deregistration returns status 500, deregistration is called once and the
function raises. -/
theorem submit_aws_job_deregisters_once_witness :
    (submit_aws_job envDeregFail sampleArgs).deregisterCalls = 1 ∧
    (submit_aws_job envDeregFail sampleArgs).hardError = true :=
  ⟨(submit_aws_job_deregisters_once envDeregFail sampleArgs g4dnSpecs rfl).1,
   (submit_aws_job_deregisters_once envDeregFail sampleArgs g4dnSpecs rfl).2.1 500 rfl
     (by decide)⟩

/-- C2 counterexample: a call with all three resource fields nonzero in
which the recommender is nevertheless invoked — refuting the claim that
it is never invoked in that case. -/
theorem recommend_invoked_despite_full_resources :
    fullResourceArgs.num_vcpu ≠ 0 ∧ fullResourceArgs.num_memory ≠ 0 ∧
    fullResourceArgs.num_gpu ≠ 0 ∧
    (submit_aws_job envAllOk fullResourceArgs).recommendCalls ≠ 0 := by
  refine ⟨by decide, by decide, by decide, by decide⟩

/-- C2 amended: `recommend_specs` is invoked exactly once on every call
to `submit_aws_job`, including when `num_vcpu`, `num_memory` and
`num_gpu` are all nonzero (line 85 runs unconditionally). -/
theorem recommend_specs_always_invoked_once (env : BatchEnv) (a : SubmitArgs) :
    (submit_aws_job env a).recommendCalls = 1 := by
  cases hd : env.describeOutcome with
  | none =>
    unfold submit_aws_job
    rw [hd]
  | some specs =>
    rw [submit_aws_job_eq env a specs hd, finallyDeregister_recommendCalls,
      (tryBlockTrace_fixed env specs a).1]

/-- C3 counterexample: when the submission call returns status 500 and
deregistration succeeds, the failure is logged and deregistration still
runs, but `submit_aws_job` returns normally (`hardError = false`): the
failure is not reported to the caller, contradicting the claim that the
overall result is reported as a failed run. -/
theorem submit_failure_swallowed :
    envSubmitFail.submitResult = ApiResult.ok 500 ∧
    (submit_aws_job envSubmitFail sampleArgs).submitFailureLogged = true ∧
    (submit_aws_job envSubmitFail sampleArgs).deregisterCalls = 1 ∧
    (submit_aws_job envSubmitFail sampleArgs).hardError = false := by
  refine ⟨by decide, by decide, by decide, by decide⟩

/-- C3 amended: when the submission call returns a non-200 status, the
invocation logs the failure and still calls deregister exactly once, but
the failure is swallowed: if deregistration returns 200 the call returns
normally, so the caller sees no failure (it is only printed). -/
theorem submit_failure_logged_and_cleaned_up (env : BatchEnv) (a : SubmitArgs)
    (specs : InstanceSpecs) (r s : ℕ) (hd : env.describeOutcome = some specs)
    (hr : env.registerResult = ApiResult.ok r) (hs : env.submitResult = ApiResult.ok s)
    (h200 : s ≠ 200) :
    (submit_aws_job env a).submitFailureLogged = true ∧
    (submit_aws_job env a).deregisterCalls = 1 ∧
    (env.deregisterResult = ApiResult.ok 200 → (submit_aws_job env a).hardError = false) := by
  rw [submit_aws_job_eq env a specs hd]
  obtain ⟨hlog, hcalls, hsub⟩ := tryBlockTrace_ok_ok env specs a r s hr hs
  refine ⟨?_, ?_, ?_⟩
  · rw [finallyDeregister_submitFailureLogged, hlog]
    exact bne_iff_ne.mpr h200
  · rw [finallyDeregister_deregisterCalls, (tryBlockTrace_fixed env specs a).2.2.2.1]
  · intro hdr
    rw [hdr, finallyDeregister_hardError_ok]
    rfl

/-- Witness for the amended C3 at the concrete failing-submission run. -/
theorem submit_failure_logged_and_cleaned_up_witness :
    (submit_aws_job envSubmitFail sampleArgs).submitFailureLogged = true ∧
    (submit_aws_job envSubmitFail sampleArgs).deregisterCalls = 1 ∧
    (submit_aws_job envSubmitFail sampleArgs).hardError = false :=
  ⟨(submit_failure_logged_and_cleaned_up envSubmitFail sampleArgs g4dnSpecs 200 500
      rfl rfl rfl (by decide)).1,
   (submit_failure_logged_and_cleaned_up envSubmitFail sampleArgs g4dnSpecs 200 500
      rfl rfl rfl (by decide)).2.1,
   (submit_failure_logged_and_cleaned_up envSubmitFail sampleArgs g4dnSpecs 200 500
      rfl rfl rfl (by decide)).2.2 rfl⟩

/-- C4 counterexample: a run whose registration call returns status 500
(a non-success response) while submission returns 200: nothing is logged
as a failure and the submission is still attempted — refuting the claim
that a non-success registration status is treated as a logged
`SubmissionFailure`. -/
theorem register_status_not_checked :
    envRegisterBadStatus.registerResult = ApiResult.ok 500 ∧
    (submit_aws_job envRegisterBadStatus sampleArgs).submitFailureLogged = false ∧
    (submit_aws_job envRegisterBadStatus sampleArgs).submitCalls = 1 := by
  refine ⟨by decide, by decide, by decide⟩

/-- C4 amended: only the submission call's response status is inspected.
When both calls return responses, a failure is logged exactly when the
submission status is non-200 — the registration status `r` is arbitrary
and never checked — submission is attempted regardless of `r`, and the
cleanup (deregistration) step still runs exactly once.  (An exception
raised by either call is likewise caught so that cleanup runs; only the
status checks are asymmetric.) -/
theorem only_submission_status_checked (env : BatchEnv) (a : SubmitArgs)
    (specs : InstanceSpecs) (r s : ℕ) (hd : env.describeOutcome = some specs)
    (hr : env.registerResult = ApiResult.ok r) (hs : env.submitResult = ApiResult.ok s) :
    (submit_aws_job env a).submitFailureLogged = (s != 200) ∧
    (submit_aws_job env a).submitCalls = 1 ∧
    (submit_aws_job env a).deregisterCalls = 1 := by
  rw [submit_aws_job_eq env a specs hd]
  obtain ⟨hlog, hcalls, hsub⟩ := tryBlockTrace_ok_ok env specs a r s hr hs
  refine ⟨?_, ?_, ?_⟩
  · rw [finallyDeregister_submitFailureLogged, hlog]
  · rw [finallyDeregister_submitCalls, hcalls]
  · rw [finallyDeregister_deregisterCalls, (tryBlockTrace_fixed env specs a).2.2.2.1]

/-- Witness for the amended C4: registration and submission both return
500; the failure log reflects only the submission status. -/
theorem only_submission_status_checked_witness :
    (submit_aws_job envBothBadStatus sampleArgs).submitFailureLogged = true ∧
    (submit_aws_job envBothBadStatus sampleArgs).submitCalls = 1 ∧
    (submit_aws_job envBothBadStatus sampleArgs).deregisterCalls = 1 :=
  only_submission_status_checked envBothBadStatus sampleArgs g4dnSpecs 500 500 rfl rfl rfl

/-- C5: for every catalog entry, the recommended memory is
`floor(SizeInMiB * 0.8)` — computed exactly, this is the natural-number
division `SizeInMiB * 4 / 5` — and on the spec's scenario entry
(4 vcpu, 16384 MiB, one GPU of count 1) the recommendation is
`(4, 13107, 1)`. -/
theorem recommend_specs_memory_is_floor :
    (∀ specs : InstanceSpecs, (recommend_specs specs).2.1 = specs.sizeInMiB * 4 / 5) ∧
    recommend_specs g4dnSpecs = (4, 13107, 1) := by
  have hgen : ∀ specs : InstanceSpecs,
      (recommend_specs specs).2.1 = specs.sizeInMiB * 4 / 5 := fun specs =>
    pyInt_mul_eight_tenths specs.sizeInMiB
  refine ⟨hgen, ?_⟩
  have h2 : (recommend_specs g4dnSpecs).2.1 = 13107 := by
    rw [hgen g4dnSpecs]
    decide
  have h1 : (recommend_specs g4dnSpecs).1 = 4 := rfl
  have h3 : (recommend_specs g4dnSpecs).2.2 = 1 := rfl
  exact Prod.ext h1 (Prod.ext h2 h3)

/-- C6: every submission payload carries `retryStrategy.attempts` equal
to the caller's retry count, and `timeout.attemptDurationSeconds` equal
to `num_hours × 3600` whenever that product is a whole number `k` of
seconds (the source computes `int(num_hours * 60 * 60)`). -/
theorem submit_payload_retry_and_timeout (env : BatchEnv) (a : SubmitArgs)
    (specs : InstanceSpecs) (p : SubmitPayload) (k : ℕ)
    (hd : env.describeOutcome = some specs)
    (hp : (submit_aws_job env a).submitted = some p)
    (hk : a.num_hours * 60 * 60 = (k : ℚ)) :
    p.retryAttempts = a.num_retries ∧ p.attemptDurationSeconds = (k : ℤ) := by
  rw [submit_aws_job_eq env a specs hd, finallyDeregister_submitted] at hp
  have hpe := tryBlockTrace_submitted_eq env specs a p hp
  subst hpe
  refine ⟨rfl, ?_⟩
  show pyInt (a.num_hours * 60 * 60) = (k : ℤ)
  rw [hk, pyInt_natCast]

/-- Witness for C6: `retry_attempts = 3` and `num_hours = 2` produce
`attempts = 3` and `attemptDurationSeconds = 7200`. -/
theorem submit_payload_retry_and_timeout_witness :
    submittedPayload.retryAttempts = 3 ∧ submittedPayload.attemptDurationSeconds = (7200 : ℤ) :=
  submit_payload_retry_and_timeout envAllOk sampleArgs g4dnSpecs submittedPayload 7200
    rfl rfl (by norm_num [sampleArgs])

/-- C7: the submitted `resourceRequirements` list contains a GPU entry
if and only if the resolved `num_gpu` is positive, and when the resolved
`num_gpu` is zero the list is empty (the GPU key is omitted entirely). -/
theorem gpu_entry_iff_resolved_gpu_pos (env : BatchEnv) (a : SubmitArgs)
    (specs : InstanceSpecs) (p : SubmitPayload) (hd : env.describeOutcome = some specs)
    (hp : (submit_aws_job env a).submitted = some p) :
    ((∃ v, (v, "GPU") ∈ p.resourceRequirements) ↔ 0 < (resolveSpecs specs a).2.2) ∧
    ((resolveSpecs specs a).2.2 = 0 → p.resourceRequirements = []) := by
  rw [submit_aws_job_eq env a specs hd, finallyDeregister_submitted] at hp
  have hpe := tryBlockTrace_submitted_eq env specs a p hp
  subst hpe
  show ((∃ v, (v, "GPU") ∈ resourceRequirementsOf (resolveSpecs specs a).2.2) ↔
      0 < (resolveSpecs specs a).2.2) ∧
    ((resolveSpecs specs a).2.2 = 0 → resourceRequirementsOf (resolveSpecs specs a).2.2 = [])
  constructor
  · unfold resourceRequirementsOf
    by_cases h : (resolveSpecs specs a).2.2 = 0
    · simp [h]
    · simp [h, Nat.pos_of_ne_zero h]
  · intro h0
    unfold resourceRequirementsOf
    simp [h0]

/-- Witness for C7 at a run whose resolved GPU count is the recommended
one (the catalog entry has one GPU of count 1). -/
theorem gpu_entry_iff_resolved_gpu_pos_witness :
    ((∃ v, (v, "GPU") ∈ submittedPayload.resourceRequirements) ↔
      0 < (resolveSpecs g4dnSpecs sampleArgs).2.2) ∧
    ((resolveSpecs g4dnSpecs sampleArgs).2.2 = 0 →
      submittedPayload.resourceRequirements = []) :=
  gpu_entry_iff_resolved_gpu_pos envAllOk sampleArgs g4dnSpecs submittedPayload rfl rfl

/-- C8 counterexample: the two distinct image references of `tagSlash`
and `tagDash` produce the same job name at the same timestamp (the
sanitization maps both '/' and '-' to '_', so it is not injective), and
the job name of the slash tag is not the claimed strip-all form either
('/' is replaced by '_', not stripped). -/
theorem job_name_collision :
    tagSlash ≠ tagDash ∧
    jobNameOf tagSlash 1700000000 = jobNameOf tagDash 1700000000 ∧
    jobNameOf tagSlash 1700000000 ≠ tagSlashStripped ++ toString 1700000000 := by
  refine ⟨by decide, by decide, by decide⟩

/-- C8 amended: the derived job name is the image reference with ':' and
spaces removed and '/' and '-' replaced by '_', concatenated with the
Unix timestamp in seconds; two image references submitted at the same
timestamp produce the same job name exactly when their sanitized forms
coincide — so distinct references whose sanitized forms differ do not
collide, but references such as those with '/' versus '-' in the same
position do. -/
theorem job_name_is_sanitized_tag_and_timestamp (t : ℕ) (tag1 tag2 : String) :
    jobNameOf tag1 t = sanitizeTag tag1 ++ toString t ∧
    (jobNameOf tag1 t = jobNameOf tag2 t ↔ sanitizeTag tag1 = sanitizeTag tag2) := by
  refine ⟨rfl, ?_, ?_⟩
  · intro h
    have h2 : (sanitizeTag tag1).data ++ (toString t).data
        = (sanitizeTag tag2).data ++ (toString t).data := congrArg String.data h
    have h3 := List.append_cancel_right h2
    cases hs1 : sanitizeTag tag1
    cases hs2 : sanitizeTag tag2
    simp_all
  · intro h
    rw [jobNameOf, jobNameOf, h]

/-- C9: for every catalog entry, the recommended vcpu count is the
catalog's default vcpu count, and the recommended GPU count is the sum
of the counts of all GPU device entries, or 0 when the entry has no
GPU info. -/
theorem recommend_specs_vcpu_and_gpu (specs : InstanceSpecs) :
    (recommend_specs specs).1 = specs.defaultVCpus ∧
    (recommend_specs specs).2.2 = (match specs.gpuInfo with
      | some gpus => gpus.sum
      | none => 0) := by
  refine ⟨rfl, ?_⟩
  show (match specs.gpuInfo with
      | some gpus_specs => gpus_specs.foldl (fun acc c => acc + c) 0
      | none => 0) = _
  cases specs.gpuInfo with
  | none => rfl
  | some l => simpa using foldl_add_eq_add_sum l 0

/-- C10: the vcpus and memory registered in the job definition's
container properties are identical to the vcpus and memory passed in the
submission's container overrides — both are the resolved values. -/
theorem register_and_submit_resources_agree (env : BatchEnv) (a : SubmitArgs)
    (specs : InstanceSpecs) (props : ContainerProps) (p : SubmitPayload)
    (hd : env.describeOutcome = some specs)
    (hreg : (submit_aws_job env a).registered = some props)
    (hsub : (submit_aws_job env a).submitted = some p) :
    props.vcpus = p.overrideVcpus ∧ props.memory = p.overrideMemory := by
  rw [submit_aws_job_eq env a specs hd, finallyDeregister_registered,
    (tryBlockTrace_fixed env specs a).2.2.1] at hreg
  rw [submit_aws_job_eq env a specs hd, finallyDeregister_submitted] at hsub
  have hprops := Option.some.inj hreg
  have hpe := tryBlockTrace_submitted_eq env specs a p hsub
  subst hpe
  rw [← hprops]
  exact ⟨rfl, rfl⟩

/-- Witness for C10 at the all-success fixture run. -/
theorem register_and_submit_resources_agree_witness :
    registeredProps.vcpus = submittedPayload.overrideVcpus ∧
    registeredProps.memory = submittedPayload.overrideMemory :=
  register_and_submit_resources_agree envAllOk sampleArgs g4dnSpecs registeredProps
    submittedPayload rfl rfl rfl

end Launcha
